import Mathlib

/-!
Shallow embedding of the routing/orchestration core of the Multi-Agent AI
Assistant (src/services/supervisor_agent.py and the summary-selection logic of
src/app_v2.py), together with theorems settling the specification claims.

The LLM network call is modelled as an explicit oracle of type
`String → Except ClassificationError String` (the prompt goes in; a raised
exception is `Except.error`).  Python dicts used as open string-keyed maps are
modelled as association lists whose lookup takes the most recent binding, so
`\x7b**old, k: v\x7d` becomes `(k, v) :: old`.
-/

namespace MultiAgent

/-- Message role: langchain `HumanMessage` (user) or `AIMessage` (assistant). -/
inductive Role where
  | user
  | assistant
deriving DecidableEq, Repr

/-- One chat message (role + content), as stored in `AgentState.messages`. -/
structure Msg where
  role : Role
  content : String
deriving DecidableEq, Repr

/-- `self.domains = [domain.value for domain in AgentDomain]`
(supervisor_agent.py lines 16-23, 49): the six registered domain identifiers,
in enum declaration order. -/
def domains : List String :=
  ["research", "finance", "travel", "shopping", "jobs", "recipes"]

/-- An open string-keyed, string-valued map (the `conversation_context` dict). -/
abbrev Ctx := List (String × String)

/-- Python `d.get(k)`: most recent binding, `none` when absent. -/
def ctxGet (c : Ctx) (k : String) : Option String :=
  c.lookup k

/-- Python `d.get(k, default)`. -/
def ctxGetD (c : Ctx) (k dflt : String) : String :=
  (c.lookup k).getD dflt

/-- Python `\x7b**c, k: v\x7d`: every old key preserved, `k` now bound to `v`. -/
def ctxInsert (c : Ctx) (k v : String) : Ctx :=
  (k, v) :: c

/-- `AgentState` TypedDict (supervisor_agent.py lines 26-33).
`user_memories` is an opaque read-only map. -/
structure AgentState where
  messages : List Msg
  next_agent : Option String
  last_message : String
  conversation_context : Ctx
  user_id : String
  user_memories : Option Ctx
deriving DecidableEq, Repr

/-- An exception raised by the LLM completion call (network, timeout,
malformed/empty response, ...); the payload is the Python exception text. -/
structure ClassificationError where
  msg : String
deriving DecidableEq, Repr

/-- The LLM oracle: prompt in, either the raw response text or a raised
exception. `self.llm.ainvoke` in the source. -/
abbrev LLM := String → Except ClassificationError String

/-- The partial state dict returned by every graph node in the source:
only the keys `next_agent` and `conversation_context`. -/
structure NodeUpdate where
  next_agent : Option String
  conversation_context : Ctx
deriving DecidableEq, Repr

/-- LangGraph channel update: `messages` has an append reducer but no node
returns that key, so it is untouched; the two returned keys overwrite. -/
def applyUpdate (s : AgentState) (u : NodeUpdate) : AgentState :=
  { s with next_agent := u.next_agent,
           conversation_context := u.conversation_context }

/-- `last_message = messages[-1].content if messages else ""`
(supervisor_agent.py line 106). -/
def lastMessageOf (msgs : List Msg) : String :=
  match msgs.getLast? with
  | some m => m.content
  | none => ""

/-- The classification prompt f-string (supervisor_agent.py lines 108-132),
with `\x7b', '.join(self.domains)\x7d` and `\x7blast_message\x7d` interpolated. -/
def classification_prompt (last_message : String) : String :=
  "\n        You are the Supervisor Agent responsible for routing user queries to the most appropriate specialized agent.\n        \n        Analyze the user query and classify it into PREDISELY one of these domains:\n        "
    ++ String.intercalate ", " domains
    ++ "\n\n        DOMAIN DEFINITIONS:\n        - research: General knowledge, company history, \"who is\", \"what is\", news summaries, academic topics, technology explanations. Use this for questions about companies that are NOT specifically about stock metrics.\n        - finance: Stock prices, ticker symbols, market cap, investment advice, portfolio management, currency exchange, financial reports.\n        - travel: Trip planning, flights, hotels, tourist attractions, destination guides.\n        - shopping: Product recommendations, reviews, buying advice, e-commerce, gifts.\n        - jobs: Career advice, resume writing, job search, interview prep.\n        - recipes: Cooking instructions, food ingredients, meal planning, dietary advice.\n\n        GUIDELINES:\n        - \"Top stocks\" or \"stock price\" -> finance\n        - \"Top tech companies\" (general) -> research\n        - \"History of Apple\" -> research\n        - \"Apple stock analysis\" -> finance\n        - If the query is ambiguous or falls between categories, prioritize \x27research\x27.\n\n        User Query: "
    ++ last_message
    ++ "\n\n        Respond with ONLY the domain name (one word, lowercase). Do not add punctuation or explanation.\n        "

/-- Python `str.lower()` (character-wise lowering of the code points). -/
def pyLower (s : String) : String :=
  String.mk (s.data.map Char.toLower)

/-- Python `str.strip()`: drop leading and trailing whitespace. -/
def pyStrip (s : String) : String :=
  String.mk (((s.data.dropWhile Char.isWhitespace).reverse.dropWhile Char.isWhitespace).reverse)

/-- Python `s[:n]`: the first `n` code points of `s`. -/
def pySlice (s : String) (n : Nat) : String :=
  String.mk (s.data.take n)

/-- Response parsing of `_classify_domain` (supervisor_agent.py lines 135-139):
`domain = response.content.strip().lower()`, then fall back to `"research"`
when the result is not a registered domain. -/
def parse_domain (response : String) : String :=
  let domain := pyLower (pyStrip response)
  if domain ∈ domains then domain else "research"

/-- `_classify_domain` (supervisor_agent.py lines 101-147).  A raised LLM
exception propagates (there is no try/except in the source); a successful
response is parsed with `parse_domain` and the node returns its partial
state update. -/
def classify_domain (llm : LLM) (state : AgentState) : Except ClassificationError NodeUpdate :=
  match llm (classification_prompt (lastMessageOf state.messages)) with
  | Except.error e => Except.error e
  | Except.ok response =>
    let domain := parse_domain response
    Except.ok
      { next_agent := some domain,
        conversation_context :=
          ctxInsert state.conversation_context "classified_domain" domain }

/-- `_route_to_research` (supervisor_agent.py lines 149-157). -/
def route_to_research (state : AgentState) : NodeUpdate :=
  { next_agent := some "research_agent",
    conversation_context := ctxInsert state.conversation_context "agent" "research" }

/-- `_route_to_finance` (supervisor_agent.py lines 159-167). -/
def route_to_finance (state : AgentState) : NodeUpdate :=
  { next_agent := some "finance_agent",
    conversation_context := ctxInsert state.conversation_context "agent" "finance" }

/-- `_route_to_travel` (supervisor_agent.py lines 169-177). -/
def route_to_travel (state : AgentState) : NodeUpdate :=
  { next_agent := some "travel_agent",
    conversation_context := ctxInsert state.conversation_context "agent" "travel" }

/-- `_route_to_shopping` (supervisor_agent.py lines 179-187). -/
def route_to_shopping (state : AgentState) : NodeUpdate :=
  { next_agent := some "shopping_agent",
    conversation_context := ctxInsert state.conversation_context "agent" "shopping" }

/-- `_route_to_jobs` (supervisor_agent.py lines 189-197). -/
def route_to_jobs (state : AgentState) : NodeUpdate :=
  { next_agent := some "jobs_agent",
    conversation_context := ctxInsert state.conversation_context "agent" "jobs" }

/-- `_route_to_recipes` (supervisor_agent.py lines 199-207). -/
def route_to_recipes (state : AgentState) : NodeUpdate :=
  { next_agent := some "recipes_agent",
    conversation_context := ctxInsert state.conversation_context "agent" "recipes" }

/-- Python string interpolation of an `Optional[str]`: `f"\x7bx\x7d"` renders
`None` as the literal text `None`. -/
def pyStr : Option String → String
  | some s => s
  | none => "None"

/-- `get_next_node` (supervisor_agent.py lines 78-80):
`domain = state.get("next_agent", "research"); return f"\x7bdomain\x7d_agent"`.
In every state `route` builds, the key `next_agent` is present (initially with
value `None`), and `dict.get` returns the stored value whenever the key is
present — so the `"research"` default of the source is dead code and the
stored value (Python-formatted) is always used. -/
def get_next_node (state : AgentState) : String :=
  pyStr state.next_agent ++ "_agent"

/-- The mapping dict of `workflow.add_conditional_edges`
(supervisor_agent.py lines 83-94): edge label → node key. -/
def conditional_edge_map : List (String × String) :=
  [("research_agent", "research_agent"),
   ("finance_agent", "finance_agent"),
   ("travel_agent", "travel_agent"),
   ("shopping_agent", "shopping_agent"),
   ("jobs_agent", "jobs_agent"),
   ("recipes_agent", "recipes_agent")]

/-- The nodes registered with `workflow.add_node` besides `classifier`
(supervisor_agent.py lines 70-75): node key → node function. -/
def run_terminal (node : String) (s : AgentState) : Option NodeUpdate :=
  if node = "research_agent" then some (route_to_research s)
  else if node = "finance_agent" then some (route_to_finance s)
  else if node = "travel_agent" then some (route_to_travel s)
  else if node = "shopping_agent" then some (route_to_shopping s)
  else if node = "jobs_agent" then some (route_to_jobs s)
  else if node = "recipes_agent" then some (route_to_recipes s)
  else none

/-- A routing-level failure of a graph invocation. -/
inductive RouteError where
  /-- The classification LLM call raised; propagated out of the graph. -/
  | classification (e : ClassificationError)
  /-- The conditional edge produced a label with no registered target
  (LangGraph raises on an unknown branch). -/
  | unknownTarget (name : String)
deriving DecidableEq, Repr

/-- The dispatch edge out of `classifier`: evaluate `get_next_node`, look the
label up in the conditional-edge mapping, run the chosen terminal node and
merge its update.  An unmapped label is a graph error. -/
def dispatch (s : AgentState) : Except RouteError AgentState :=
  let target := get_next_node s
  match conditional_edge_map.lookup target with
  | none => Except.error (RouteError.unknownTarget target)
  | some node =>
    match run_terminal node s with
    | none => Except.error (RouteError.unknownTarget node)
    | some u => Except.ok (applyUpdate s u)

/-- `self.graph.ainvoke(state)`: entry point `classifier`, then the
conditional edge to exactly one terminal node, then halt
(supervisor_agent.py lines 64-99). -/
def graph_ainvoke (llm : LLM) (s : AgentState) : Except RouteError AgentState :=
  match classify_domain llm s with
  | Except.error e => Except.error (RouteError.classification e)
  | Except.ok u => dispatch (applyUpdate s u)

/-- A conversation-history entry as the caller passes it: a
`\x7b"role": ..., "content": ...\x7d` dict. -/
abbrev HistoryEntry := String × String

/-- The history loop of `route` (supervisor_agent.py lines 230-236): role
`"user"` becomes a `HumanMessage`, anything else an `AIMessage`. -/
def history_to_messages : List HistoryEntry → List Msg
  | [] => []
  | (role, content) :: rest =>
    (if role = "user" then Msg.mk Role.user content else Msg.mk Role.assistant content)
      :: history_to_messages rest

/-- The initial state built by `route` (supervisor_agent.py lines 228-245).
Note the source seeds `messages = [HumanMessage(content=message)]` FIRST and
only then appends the history entries after it. -/
def build_initial_state (message user_id : String)
    (conversation_history : Option (List HistoryEntry)) (user_memories : Option Ctx) :
    AgentState :=
  { messages :=
      Msg.mk Role.user message ::
        (match conversation_history with
         | some h => history_to_messages h
         | none => []),
    next_agent := none,
    last_message := message,
    conversation_context := [],
    user_id := user_id,
    user_memories := user_memories }

/-- The structured return value of `route` (supervisor_agent.py lines 250-255). -/
structure RoutingDecision where
  recommended_agent : String
  classified_domain : Option String
  context : Ctx
  user_id : String
deriving DecidableEq, Repr

/-- `SupervisorAgent.route` (supervisor_agent.py lines 209-255): build the
initial state, invoke the routing graph, extract the decision.  There is no
input validation anywhere in the function. -/
def route (llm : LLM) (message user_id : String)
    (conversation_history : Option (List HistoryEntry)) (user_memories : Option Ctx) :
    Except RouteError RoutingDecision :=
  match graph_ainvoke llm (build_initial_state message user_id conversation_history user_memories) with
  | Except.error e => Except.error e
  | Except.ok output =>
    Except.ok
      { recommended_agent := ctxGetD output.conversation_context "agent" "research",
        classified_domain := ctxGet output.conversation_context "classified_domain",
        context := output.conversation_context,
        user_id := user_id }

/-- Summary selection of the render path in app_v2.py (lines 311-325): when
the agent response is truthy and non-blank, call `llm_service.summarize_text`;
a raised exception or an empty summary is replaced by
`response_text[:300] + "..."`; a blank response yields the fixed notice. -/
def select_summary (response_text : String)
    (summarize_text : String → Except String String) : String :=
  if response_text ≠ "" ∧ pyStrip response_text ≠ "" then
    match summarize_text response_text with
    | Except.ok s => if s = "" then pySlice response_text 300 ++ "..." else s
    | Except.error _ => pySlice response_text 300 ++ "..."
  else
    "No response received."

/-- A concrete `AgentState` with an empty messages list (test fixture). -/
def emptyMsgState : AgentState :=
  { messages := [], next_agent := none, last_message := "",
    conversation_context := [], user_id := "u", user_memories := none }

/-- A concrete `AgentState` carrying one pre-existing context key (test fixture). -/
def oldCtxState : AgentState :=
  { messages := [], next_agent := none, last_message := "",
    conversation_context := [("old", "1")], user_id := "u", user_memories := none }

/-- The `RoutingDecision` produced by a mocked `"recipes"` classification
of the message `"hello"` for user `"u9"` (test fixture). -/
def recipesDecision : RoutingDecision :=
  { recommended_agent := "recipes", classified_domain := some "recipes",
    context := [("agent", "recipes"), ("classified_domain", "recipes")],
    user_id := "u9" }

theorem parse_domain_mem (r : String) : parse_domain r ∈ domains := by
  show (if pyLower (pyStrip r) ∈ domains then pyLower (pyStrip r) else "research") ∈ domains
  split
  · assumption
  · decide

theorem classify_domain_ok (resp : String) (s : AgentState) :
    classify_domain (fun _ => Except.ok resp) s =
      Except.ok { next_agent := some (parse_domain resp),
                  conversation_context :=
                    ctxInsert s.conversation_context "classified_domain" (parse_domain resp) } := rfl

theorem graph_ainvoke_ok (resp : String) (s : AgentState) :
    graph_ainvoke (fun _ => Except.ok resp) s =
      dispatch (applyUpdate s
        { next_agent := some (parse_domain resp),
          conversation_context :=
            ctxInsert s.conversation_context "classified_domain" (parse_domain resp) }) := rfl

theorem dispatch_of_domain (s : AgentState) (d : String)
    (hs : s.next_agent = some d) (hd : d ∈ domains) :
    dispatch s = Except.ok { s with
      next_agent := some (d ++ "_agent"),
      conversation_context := ctxInsert s.conversation_context "agent" d } := by
  obtain ⟨msgs, na, lm, cc, uid, um⟩ := s
  have hna : na = some d := hs
  subst hna
  simp only [domains, List.mem_cons, List.not_mem_nil, or_false] at hd
  rcases hd with h|h|h|h|h|h <;> subst h <;> rfl

theorem route_ok_eq (resp m u : String) (hist : Option (List HistoryEntry)) (mems : Option Ctx) :
    route (fun _ => Except.ok resp) m u hist mems =
      Except.ok { recommended_agent := parse_domain resp,
                  classified_domain := some (parse_domain resp),
                  context := [("agent", parse_domain resp),
                              ("classified_domain", parse_domain resp)],
                  user_id := u } := by
  unfold route
  rw [graph_ainvoke_ok]
  rw [dispatch_of_domain _ (parse_domain resp) rfl (parse_domain_mem resp)]
  rfl

theorem append_agent_cancel {a b : String} (h : a ++ "_agent" = b ++ "_agent") : a = b := by
  have h2 := congrArg String.data h
  rw [String.data_append, String.data_append] at h2
  exact String.ext (List.append_cancel_right h2)

theorem edge_map_lookup_none_of_invalid {d : String} (hd : d ∉ domains) :
    conditional_edge_map.lookup (d ++ "_agent") = none := by
  have h : ∀ x : String, x ∈ domains → (d ++ "_agent" == x ++ "_agent") = false := by
    intro x hx
    rw [beq_eq_false_iff_ne]
    exact fun hc => hd (append_agent_cancel hc ▸ hx)
  have h1 : (d ++ "_agent" == "research_agent") = false := h "research" (by decide)
  have h2 : (d ++ "_agent" == "finance_agent") = false := h "finance" (by decide)
  have h3 : (d ++ "_agent" == "travel_agent") = false := h "travel" (by decide)
  have h4 : (d ++ "_agent" == "shopping_agent") = false := h "shopping" (by decide)
  have h5 : (d ++ "_agent" == "jobs_agent") = false := h "jobs" (by decide)
  have h6 : (d ++ "_agent" == "recipes_agent") = false := h "recipes" (by decide)
  simp only [conditional_edge_map, List.lookup]
  rw [h1, h2, h3, h4, h5, h6]

/-- C1 (code evaluation at the failing input): `route` seeds `messages` with
the NEW message first and only then appends the history entries, so the
initial state's message sequence is the new message followed by the history —
not the history followed by the new message as the final user turn, as the
spec states.  The remaining fields (`last_message`, `conversation_context`,
`next_agent`, `user_id`, `user_memories`) do match the spec. -/
theorem initial_state_puts_new_message_first :
    (build_initial_state "What is the capital of France" "u1"
        (some [("user", "Plan a trip to Rome"), ("assistant", "Sure, when?")]) none).messages =
      [Msg.mk Role.user "What is the capital of France",
       Msg.mk Role.user "Plan a trip to Rome",
       Msg.mk Role.assistant "Sure, when?"] ∧
    (build_initial_state "What is the capital of France" "u1"
        (some [("user", "Plan a trip to Rome"), ("assistant", "Sure, when?")]) none).messages ≠
      [Msg.mk Role.user "Plan a trip to Rome",
       Msg.mk Role.assistant "Sure, when?",
       Msg.mk Role.user "What is the capital of France"] ∧
    (build_initial_state "What is the capital of France" "u1"
        (some [("user", "Plan a trip to Rome"), ("assistant", "Sure, when?")]) none).last_message =
      "What is the capital of France" ∧
    (build_initial_state "What is the capital of France" "u1"
        (some [("user", "Plan a trip to Rome"), ("assistant", "Sure, when?")]) none).conversation_context =
      [] ∧
    (build_initial_state "What is the capital of France" "u1"
        (some [("user", "Plan a trip to Rome"), ("assistant", "Sure, when?")]) none).next_agent =
      none :=
  ⟨rfl, by decide, rfl, rfl, rfl⟩

/-- C2 (code evaluation at the failing input): because `route` puts the new
message first, the query the classifier embeds in its prompt
(`messages[-1].content`) is the LAST HISTORY entry, not the triggering
message, whenever the history is non-empty. -/
theorem classifier_query_is_last_history_entry :
    lastMessageOf (build_initial_state "What is the capital of France" "u1"
        (some [("user", "Plan a trip to Rome")]) none).messages = "Plan a trip to Rome" ∧
    ("Plan a trip to Rome" : String) ≠ "What is the capital of France" ∧
    (∀ llm : LLM,
      classify_domain llm (build_initial_state "What is the capital of France" "u1"
          (some [("user", "Plan a trip to Rome")]) none) =
        match llm (classification_prompt "Plan a trip to Rome") with
        | Except.error e => Except.error e
        | Except.ok response =>
          Except.ok { next_agent := some (parse_domain response),
                      conversation_context :=
                        ctxInsert [] "classified_domain" (parse_domain response) }) :=
  ⟨rfl, by decide, fun _ => rfl⟩

/-- C3: when the classification LLM call itself raises, `_classify_domain`
has no local handler and `route` none either: the whole `route()` call fails
with the classification error; in particular the result is an error, never a
decision silently defaulted to the research domain. -/
theorem classification_error_propagates (e : ClassificationError)
    (message user_id : String) (hist : Option (List HistoryEntry)) (mems : Option Ctx) :
    route (fun _ => Except.error e) message user_id hist mems =
      Except.error (RouteError.classification e) := rfl

/-- C4: on any successfully returned LLM text, the classifier strips and
lower-cases it; an exact match with a registered domain identifier is kept
and anything else is replaced by the default `"research"`; the classifier
returns normally (an `Except.ok` update), never an exception, and the chosen
domain is always registered. -/
theorem classifier_parses_or_defaults (resp : String) (s : AgentState) :
    classify_domain (fun _ => Except.ok resp) s =
      Except.ok { next_agent := some (parse_domain resp),
                  conversation_context :=
                    ctxInsert s.conversation_context "classified_domain" (parse_domain resp) } ∧
    parse_domain resp =
      (if pyLower (pyStrip resp) ∈ domains then pyLower (pyStrip resp) else "research") ∧
    parse_domain resp ∈ domains :=
  ⟨rfl, rfl, parse_domain_mem resp⟩

/-- C5: whenever the classification call succeeds, `route` completes with a
`RoutingDecision` whose `recommended_agent` and `classified_domain` are
registered domains (never absent, never out-of-registry, whatever text the
model returned), whose `recommended_agent` is read from
`conversation_context.agent` with `"research"` as the absent-key default, and
whose `user_id` echoes the input. -/
theorem route_decision_total (llm_response message user_id : String)
    (hist : Option (List HistoryEntry)) (mems : Option Ctx) :
    ∃ dec : RoutingDecision,
      route (fun _ => Except.ok llm_response) message user_id hist mems = Except.ok dec ∧
      dec.recommended_agent ∈ domains ∧
      (∃ cd, cd ∈ domains ∧ dec.classified_domain = some cd) ∧
      dec.recommended_agent = ctxGetD dec.context "agent" "research" ∧
      dec.user_id = user_id := by
  refine ⟨_, route_ok_eq llm_response message user_id hist mems, ?_, ?_, ?_, ?_⟩
  · exact parse_domain_mem llm_response
  · exact ⟨parse_domain llm_response, parse_domain_mem llm_response, rfl⟩
  · rfl
  · rfl

/-- C6 (counterexample): with an empty `message` and an empty `user_id`,
`route` does not fail — there is no validation anywhere in the function —
and the classifier LLM call is still consulted (the decision below reproduces
the mocked response). -/
theorem route_accepts_empty_inputs :
    route (fun _ => Except.ok "finance") "" "" none none =
      Except.ok { recommended_agent := "finance",
                  classified_domain := some "finance",
                  context := [("agent", "finance"), ("classified_domain", "finance")],
                  user_id := "" } := rfl

/-- C6 (amended): `route` performs no input validation: an empty message and
an empty user id are accepted as-is, the LLM call is still made, and the call
completes with a decision derived from the LLM response. -/
theorem route_no_input_validation (resp : String)
    (hist : Option (List HistoryEntry)) (mems : Option Ctx) :
    route (fun _ => Except.ok resp) "" "" hist mems =
      Except.ok { recommended_agent := parse_domain resp,
                  classified_domain := some (parse_domain resp),
                  context := [("agent", parse_domain resp),
                              ("classified_domain", parse_domain resp)],
                  user_id := "" } :=
  route_ok_eq resp "" "" hist mems

/-- C7 (counterexample): with `next_agent` holding the invalid domain
`"banana"`, the edge function returns `"banana_agent"`, which maps to no
registered terminal: dispatch fails with an unknown-target error instead of
selecting the research terminal, and nothing is recorded in
`conversation_context`. -/
theorem dispatch_invalid_domain_errors_concrete :
    get_next_node { messages := [], next_agent := some "banana", last_message := "x",
                    conversation_context := [], user_id := "u", user_memories := none } =
      "banana_agent" ∧
    dispatch { messages := [], next_agent := some "banana", last_message := "x",
               conversation_context := [], user_id := "u", user_memories := none } =
      Except.error (RouteError.unknownTarget "banana_agent") :=
  ⟨rfl, rfl⟩

/-- C7 (amended): if `next_agent` holds a value `D` that is not a registered
domain, `get_next_node` returns `D ++ "_agent"`, which matches no entry of the
conditional-edge mapping, and dispatch fails with an unknown-target error; no
research fallback is selected and no fallback marker is recorded (the
`"research"` default of the source's `dict.get` applies only when the
`next_agent` key is absent, which never happens in states built by `route`). -/
theorem dispatch_invalid_domain_errors (s : AgentState) (d : String)
    (hna : s.next_agent = some d) (hd : d ∉ domains) :
    dispatch s = Except.error (RouteError.unknownTarget (d ++ "_agent")) := by
  obtain ⟨msgs, na, lm, cc, uid, um⟩ := s
  have hna2 : na = some d := hna
  subst hna2
  unfold dispatch
  rw [show get_next_node ⟨msgs, some d, lm, cc, uid, um⟩ = d ++ "_agent" from rfl]
  simp only [edge_map_lookup_none_of_invalid hd]

/-- C7 amended, witness at `D = "banana"`. -/
theorem dispatch_invalid_domain_errors_witness :
    ({ messages := [], next_agent := some "banana", last_message := "x",
       conversation_context := [], user_id := "u",
       user_memories := none } : AgentState).next_agent = some "banana" ∧
    "banana" ∉ domains ∧
    dispatch { messages := [], next_agent := some "banana", last_message := "x",
               conversation_context := [], user_id := "u", user_memories := none } =
      Except.error (RouteError.unknownTarget ("banana" ++ "_agent")) :=
  ⟨rfl, by decide,
    dispatch_invalid_domain_errors _ "banana" rfl (by decide)⟩

/-- C8: every terminal node performs the same uniform action — it writes
`conversation_context.agent = <its domain>` and sets
`next_agent = "<domain>_agent"` while preserving every other context key —
and consequently, at the end of every completed invocation,
`conversation_context.agent` equals `conversation_context.classified_domain`. -/
theorem terminal_nodes_uniform (s : AgentState) (c : Ctx) (d k : String)
    (hk : k ≠ "agent") (resp m u : String) (hist : Option (List HistoryEntry))
    (mems : Option Ctx) (dec : RoutingDecision)
    (hroute : route (fun _ => Except.ok resp) m u hist mems = Except.ok dec) :
    route_to_research s =
      { next_agent := some "research_agent",
        conversation_context := ctxInsert s.conversation_context "agent" "research" } ∧
    route_to_finance s =
      { next_agent := some "finance_agent",
        conversation_context := ctxInsert s.conversation_context "agent" "finance" } ∧
    route_to_travel s =
      { next_agent := some "travel_agent",
        conversation_context := ctxInsert s.conversation_context "agent" "travel" } ∧
    route_to_shopping s =
      { next_agent := some "shopping_agent",
        conversation_context := ctxInsert s.conversation_context "agent" "shopping" } ∧
    route_to_jobs s =
      { next_agent := some "jobs_agent",
        conversation_context := ctxInsert s.conversation_context "agent" "jobs" } ∧
    route_to_recipes s =
      { next_agent := some "recipes_agent",
        conversation_context := ctxInsert s.conversation_context "agent" "recipes" } ∧
    ctxGet (ctxInsert c "agent" d) k = ctxGet c k ∧
    ctxGet dec.context "agent" = ctxGet dec.context "classified_domain" := by
  have hkb : (k == "agent") = false := beq_eq_false_iff_ne.mpr hk
  have hdec : dec = { recommended_agent := parse_domain resp,
                      classified_domain := some (parse_domain resp),
                      context := [("agent", parse_domain resp),
                                  ("classified_domain", parse_domain resp)],
                      user_id := u } := by
    rw [route_ok_eq] at hroute
    exact (Except.ok.inj hroute).symm
  subst hdec
  have h1 : (("agent" : String) == "agent") = true := by decide
  have h2 : (("classified_domain" : String) == "agent") = false := by decide
  have h3 : (("classified_domain" : String) == "classified_domain") = true := by decide
  refine ⟨rfl, rfl, rfl, rfl, rfl, rfl, ?_, ?_⟩
  · simp [ctxGet, ctxInsert, List.lookup, hkb]
  · simp [ctxGet, List.lookup, h1, h2, h3]

/-- C8, witness: a concrete state, key, and completed invocation. -/
theorem terminal_nodes_uniform_witness :
    ("topic" : String) ≠ "agent" ∧
    route (fun _ => Except.ok "recipes") "hello" "u9" none none =
      Except.ok recipesDecision ∧
    (route_to_research oldCtxState =
       { next_agent := some "research_agent",
         conversation_context := ctxInsert oldCtxState.conversation_context "agent" "research" } ∧
     route_to_finance oldCtxState =
       { next_agent := some "finance_agent",
         conversation_context := ctxInsert oldCtxState.conversation_context "agent" "finance" } ∧
     route_to_travel oldCtxState =
       { next_agent := some "travel_agent",
         conversation_context := ctxInsert oldCtxState.conversation_context "agent" "travel" } ∧
     route_to_shopping oldCtxState =
       { next_agent := some "shopping_agent",
         conversation_context := ctxInsert oldCtxState.conversation_context "agent" "shopping" } ∧
     route_to_jobs oldCtxState =
       { next_agent := some "jobs_agent",
         conversation_context := ctxInsert oldCtxState.conversation_context "agent" "jobs" } ∧
     route_to_recipes oldCtxState =
       { next_agent := some "recipes_agent",
         conversation_context := ctxInsert oldCtxState.conversation_context "agent" "recipes" } ∧
     ctxGet (ctxInsert [("old", "1")] "agent" "research") "topic" = ctxGet [("old", "1")] "topic" ∧
     ctxGet recipesDecision.context "agent" = ctxGet recipesDecision.context "classified_domain") :=
  ⟨by decide, rfl,
    terminal_nodes_uniform oldCtxState [("old", "1")] "research" "topic" (by decide)
      "recipes" "hello" "u9" none none recipesDecision rfl⟩

/-- C9 (counterexample): when summarization fails, the substituted text is not
literally the first 300 characters of the original — the code appends a
hard-coded `"..."` on top of the 300-character slice. -/
theorem summary_fallback_appends_ellipsis :
    select_summary "hello world" (fun _ => Except.error "timeout") = "hello world..." ∧
    pySlice "hello world" 300 = "hello world" ∧
    select_summary "hello world" (fun _ => Except.error "timeout") ≠ pySlice "hello world" 300 :=
  ⟨rfl, rfl, by decide⟩

/-- C9 (amended): for every response text that is non-blank after stripping,
if the summarization call raises or returns an empty summary, the turn does
not fail: the summary is deterministically replaced by the first 300
characters of the original text with a literal `"..."` appended, and the
summarization error is never propagated. -/
theorem summary_fallback_truncation (text : String)
    (summarize_text : String → Except String String)
    (htext : pyStrip text ≠ "")
    (hfail : (∃ e, summarize_text text = Except.error e) ∨ summarize_text text = Except.ok "") :
    select_summary text summarize_text = pySlice text 300 ++ "..." := by
  have htext2 : text ≠ "" := fun h => htext (by rw [h]; rfl)
  unfold select_summary
  rw [if_pos ⟨htext2, htext⟩]
  rcases hfail with ⟨e, he⟩ | he
  · rw [he]
  · rw [he]
    rfl

/-- C9, witness: a raising summarizer on a concrete non-blank text. -/
theorem summary_fallback_truncation_witness :
    pyStrip "A long agent answer." ≠ "" ∧
    ((∃ e, (fun _ : String => (Except.error "timeout" : Except String String))
        "A long agent answer." = Except.error e) ∨
      (fun _ : String => (Except.error "timeout" : Except String String))
        "A long agent answer." = Except.ok "") ∧
    select_summary "A long agent answer." (fun _ => Except.error "timeout") =
      pySlice "A long agent answer." 300 ++ "..." :=
  ⟨by decide, Or.inl ⟨"timeout", rfl⟩,
    summary_fallback_truncation "A long agent answer." (fun _ => Except.error "timeout")
      (by decide) (Or.inl ⟨"timeout", rfl⟩)⟩

/-- C10: the classifier node is total in the messages list: with an empty
`messages` it does not index out of bounds — the source guards `messages[-1]`
with a conditional — the query defaults to the empty string, the prompt is
built from that empty query, and a successful LLM response still yields a
registered domain via the research fallback. -/
theorem classifier_total_on_empty_messages (s : AgentState) (llm : LLM)
    (resp : String) (hs : s.messages = []) :
    lastMessageOf s.messages = "" ∧
    classify_domain llm s =
      (match llm (classification_prompt "") with
       | Except.error e => Except.error e
       | Except.ok response =>
         Except.ok { next_agent := some (parse_domain response),
                     conversation_context :=
                       ctxInsert s.conversation_context "classified_domain"
                         (parse_domain response) }) ∧
    (classify_domain (fun _ => Except.ok resp) s =
      Except.ok { next_agent := some (parse_domain resp),
                  conversation_context :=
                    ctxInsert s.conversation_context "classified_domain" (parse_domain resp) } ∧
      parse_domain resp ∈ domains) := by
  obtain ⟨msgs, na, lm, cc, uid, um⟩ := s
  have h : msgs = [] := hs
  subst h
  exact ⟨rfl, rfl, rfl, parse_domain_mem resp⟩

/-- C10, witness: a concrete state whose messages list is empty. -/
theorem classifier_total_on_empty_messages_witness :
    emptyMsgState.messages = ([] : List Msg) ∧
    (lastMessageOf emptyMsgState.messages = "" ∧
     classify_domain (fun _ => Except.ok "gibberish") emptyMsgState =
       (match (fun _ : String => (Except.ok "gibberish" : Except ClassificationError String))
           (classification_prompt "") with
        | Except.error e => Except.error e
        | Except.ok response =>
          Except.ok
            { next_agent := some (parse_domain response),
              conversation_context :=
                ctxInsert emptyMsgState.conversation_context "classified_domain"
                  (parse_domain response) }) ∧
     (classify_domain (fun _ => Except.ok "gibberish") emptyMsgState =
        Except.ok
          { next_agent := some (parse_domain "gibberish"),
            conversation_context :=
              ctxInsert emptyMsgState.conversation_context "classified_domain"
                (parse_domain "gibberish") } ∧
      parse_domain "gibberish" ∈ domains)) :=
  ⟨rfl,
    classifier_total_on_empty_messages emptyMsgState
      (fun _ => Except.ok "gibberish") "gibberish" rfl⟩

end MultiAgent
